import Mathlib

/-!
Verification of the two scaffolding generators (`scaffold.py` and
`scaffold_package.py`).  Each generator is embedded as a function producing the
trace of file-system operations the Python code performs, and the traces are
interpreted over an explicit file-system state.  Paths are lists of components;
the pathlib `/` operator is `pathJoin`, which drops an empty component the way
`PurePath` does.  The clock is injected: the year that `datetime.now().year`
would read is a parameter of the trace, following the explicit-clock note of
the design documentation.
-/

/-- Observable state of one file: its textual content and its permission mode bits. -/
structure FileData where
  content : String
  mode : Nat
deriving DecidableEq

/-- The pathlib `/` operator: joining the empty string leaves the path
unchanged (`PurePath` drops empty components). -/
def pathJoin (p : List String) (s : String) : List String :=
  if s = "" then p else p ++ [s]

/-- Joining a multi-component relative path, one component at a time. -/
def pathJoinAll (p : List String) (q : List String) : List String :=
  q.foldl pathJoin p

/-- All initial segments of a path: the set of directories that
`mkdir(parents=True)` guarantees to exist afterwards. -/
def initSegs : List String → List (List String)
  | [] => [[]]
  | a :: rest => [] :: (initSegs rest).map (a :: ·)

/-- File-system state: which directories exist, and the data of each file. -/
@[ext]
structure FS where
  dirs : List String → Bool
  files : List String → Option FileData

/-- One file-system operation performed by the generators. -/
inductive Op where
  | mkdirp (p : List String)
  | write (p : List String) (content : String)
  | touch (p : List String)
  | chmod (p : List String) (mode : Nat)
deriving DecidableEq

/-- `open(path, "w")` keeps the mode of an existing file; a fresh file gets
0o644 (0o666 masked by the usual umask). -/
def writeMode (old : Option FileData) : Nat :=
  (old.map FileData.mode).getD 0o644

/-- Effect of one operation.  `mkdirp` is `mkdir(parents=True, exist_ok=True)`:
it makes every initial segment of the path a directory and is a no-op where
they already exist.  `write` is `open(..., "w")` + `f.write`: the content is
replaced unconditionally.  `touch` is `Path.touch()`: it creates an empty file
only if none exists, otherwise it leaves content and mode unchanged.  `chmod`
replaces the mode of an existing file. -/
def applyOp (s : FS) : Op → FS
  | .mkdirp p =>
      { s with dirs := fun q => if q ∈ initSegs p then true else s.dirs q }
  | .write p c =>
      { s with files := fun q =>
          if q = p then some ⟨c, writeMode (s.files p)⟩ else s.files q }
  | .touch p =>
      { s with files := fun q =>
          if q = p then some ((s.files p).getD ⟨"", 0o644⟩) else s.files q }
  | .chmod p m =>
      { s with files := fun q =>
          if q = p then (s.files p).map (fun fd => ⟨fd.content, m⟩) else s.files q }

/-- Run a whole trace, left to right. -/
def applyOps (s : FS) (ops : List Op) : FS :=
  ops.foldl applyOp s

/-- Content of the file at a path, if any. -/
def fileContent (s : FS) (p : List String) : Option String :=
  (s.files p).map FileData.content

/-- Mode of the file at a path, if any. -/
def fileMode (s : FS) (p : List String) : Option Nat :=
  (s.files p).map FileData.mode

/-- The owner execute bit of a mode. -/
def ownerExec (m : Nat) : Bool :=
  m / 64 % 2 = 1

/-- Paths of the `mkdirp` operations of a trace, in order. -/
def mkdirTargets : List Op → List (List String)
  | [] => []
  | .mkdirp p :: rest => p :: mkdirTargets rest
  | _ :: rest => mkdirTargets rest

/-- Paths of the file-creating operations (`write` and `touch`) of a trace,
in order. -/
def fileTargets : List Op → List (List String)
  | [] => []
  | .write p _ :: rest => p :: fileTargets rest
  | .touch p :: rest => p :: fileTargets rest
  | _ :: rest => fileTargets rest

/-- The contents written to a given path by the `write` operations of a trace,
in trace order. -/
def contentsWrittenTo (p : List String) : List Op → List String
  | [] => []
  | .write q c :: rest =>
      if q = p then c :: contentsWrittenTo p rest else contentsWrittenTo p rest
  | _ :: rest => contentsWrittenTo p rest

/-- Every file-level operation of the trace happens only after the parent
directory of its path is already guaranteed to exist (`created` accumulates the
directories guaranteed so far; `mkdirp` guarantees every initial segment of
its path). -/
def dirsBeforeWrites (created : List (List String)) : List Op → Prop
  | [] => True
  | .mkdirp p :: rest => dirsBeforeWrites (initSegs p ++ created) rest
  | .write p _ :: rest => p.dropLast ∈ created ∧ dirsBeforeWrites created rest
  | .touch p :: rest => p.dropLast ∈ created ∧ dirsBeforeWrites created rest
  | .chmod p _ :: rest => p.dropLast ∈ created ∧ dirsBeforeWrites created rest

/-- The file system with no directories and no files. -/
def emptyFS : FS :=
  { dirs := fun _ => false, files := fun _ => none }

namespace scaffold

/-- The text written to `run.bash` (from `create_run_bash` in `scaffold.py`;
the `\n` escapes inside the Python triple-quoted literal are real newlines). -/
def run_bash_content : String :=
  "#!/bin/bash\n\n# Create bash directory if it doesn\x27t exist\nmkdir -p bash\n\n# Set log file paths\nLOG_FILE=\"bash/pipeline_execution.log\"\nERROR_LOG=\"bash/pipeline_errors.log\"\n\n# Clear previous logs\n> \"$LOG_FILE\"\n> \"$ERROR_LOG\"\n\n# Record start time\necho \"Pipeline execution started at $(date)\" | tee -a \"$LOG_FILE\"\n\n# Define script list\nSCRIPTS=(\n    \"script1.py\"\n    \"script2.py\"\n    \"script3.py\"\n    # Add more scripts here\n)\n\n# Run each script\nfor script in \"$\x7bSCRIPTS[@]\x7d\"; do\n    echo -e \"\n=== Running $script ===\" | tee -a \"$LOG_FILE\"\n    \n    # Check if file exists\n    if [ ! -f \"$script\" ]; then\n        echo \"Error: Script $script not found!\" | tee -a \"$ERROR_LOG\"\n        continue\n    fi\n    \n    # Record start time\n    start_time=$(date +%s)\n    start_datetime=$(date)\n    \n    # Run Python script and wait for completion\n    python \"$script\" 2>> \"$ERROR_LOG\" && wait\n    \n    if [ $? -eq 0 ]; then\n        # Calculate execution time\n        end_time=$(date +%s)\n        end_datetime=$(date)\n        duration=$((end_time - start_time))\n        \n        # Convert duration to readable format\n        hours=$((duration / 3600))\n        minutes=$(( (duration % 3600) / 60 ))\n        seconds=$((duration % 60))\n        \n        echo \"✓ Successfully completed $script\" | tee -a \"$LOG_FILE\"\n        echo \"Started at: $start_datetime\" | tee -a \"$LOG_FILE\"\n        echo \"Finished at: $end_datetime\" | tee -a \"$LOG_FILE\"\n        echo \"Duration: $\x7bhours\x7dh $\x7bminutes\x7dm $\x7bseconds\x7ds\" | tee -a \"$LOG_FILE\"\n    else\n        echo \"✗ Failed to execute $script\" | tee -a \"$LOG_FILE\"\n        echo \"Check $ERROR_LOG for details\"\n        \n        read -p \"Continue with next script? (y/n) \" -n 1 -r\n        echo\n        if [[ ! $REPLY =~ ^[Yy]$ ]]; then\n            echo \"Pipeline execution stopped by user\" | tee -a \"$LOG_FILE\"\n            exit 1\n        fi\n    fi\ndone\n\necho -e \"\nPipeline execution completed at $(date)\" | tee -a \"$LOG_FILE\"\n"

/-- `create_run_bash`: writes `run.bash` and chmods it to 0o755. -/
def create_run_bash (project_path : List String) : List Op :=
  [Op.write (pathJoin project_path "run.bash") run_bash_content,
   Op.chmod (pathJoin project_path "run.bash") 0o755]

/-- The text written to `helpers.py` (from `create_helpers`). -/
def helpers_content : String :=
  "\x69mport os\nfrom pathlib \x69mport Path\n\ndef set_working_directory() -> Path:\n    \"\"\"\n    Set the working directory to the project root.\n    This function should be called at the beginning of each script.\n    \n    Returns:\n        Path: Project root directory path\n    \"\"\"\n    # Get the directory of the current script\n    current_dir = Path(os.path.dirname(os.path.abspath(__file__)))\n    \n    # Set working directory to project root (parent of current script)\n    os.chdir(current_dir)\n    \n    return current_dir\n\ndef setup_paths() -> dict:\n    \"\"\"\n    Create a dictionary of important project paths.\n    \n    Returns:\n        dict: Dictionary containing paths for different project directories\n    \"\"\"\n    root_dir = set_working_directory()\n    \n    paths = \x7b\n        \x27root\x27: root_dir,\n        \x27data\x27: root_dir / \x27data\x27,\n        \x27output\x27: root_dir / \x27output\x27,\n        \x27logs\x27: root_dir / \x27logs\x27,\n        \x27bash\x27: root_dir / \x27bash\x27\n    \x7d\n    \n    return paths\n\n# Example usage:\nif __name__ == \"__main__\":\n    # Set working directory\n    project_dir = set_working_directory()\n    print(f\"Working directory set to: \x7bproject_dir\x7d\")\n    \n    # Get project paths\n    paths = setup_paths()\n    print(\"Project paths:\")\n    for key, path in paths.items():\n        print(f\"\x7bkey\x7d: \x7bpath\x7d\")\n"

/-- `create_helpers`: writes `helpers.py`. -/
def create_helpers (project_path : List String) : List Op :=
  [Op.write (pathJoin project_path "helpers.py") helpers_content]

/-- The fixed part of the MIT license text after the interpolated year
(from the f-string in `create_license`). -/
def license_tail : String :=
  " Jeremy\n\nPermission is hereby granted, free of charge, to any person obtaining a copy\nof this software and associated documentation files (the \"Software\"), to deal\nin the Software without restriction, including without limitation the rights\nto use, copy, modify, merge, publish, distribute, sublicense, and/or sell\ncopies of the Software, and to permit persons to whom the Software is\nfurnished to do so, subject to the following conditions:\n\nThe above copyright notice and this permission notice shall be included in all\ncopies or substantial portions of the Software.\n\nTHE SOFTWARE IS PROVIDED \"AS IS\", WITHOUT WARRANTY OF ANY KIND, EXPRESS OR\nIMPLIED, INCLUDING BUT NOT LIMITED TO THE WARRANTIES OF MERCHANTABILITY,\nFITNESS FOR A PARTICULAR PURPOSE AND NONINFRINGEMENT. IN NO EVENT SHALL THE\nAUTHORS OR COPYRIGHT HOLDERS BE LIABLE FOR ANY CLAIM, DAMAGES OR OTHER\nLIABILITY, WHETHER IN AN ACTION OF CONTRACT, TORT OR OTHERWISE, ARISING FROM,\nOUT OF OR IN CONNECTION WITH THE SOFTWARE OR THE USE OR OTHER DEALINGS IN THE\nSOFTWARE.\n"

/-- The text of the MIT license, stamped with the year read from the clock
(from `create_license`; the f-string interpolates `current_year` between the
copyright prefix and the rest of the text). -/
def license_content (year : Nat) : String :=
  "MIT License\n\nCopyright (c) " ++ toString year ++ license_tail

/-- `create_license`: writes `LICENSE`, with the current year interpolated. -/
def create_license (project_path : List String) (year : Nat) : List Op :=
  [Op.write (pathJoin project_path "LICENSE") (license_content year)]

/-- The first `.gitignore` text (from `create_gitignore`). -/
def gitignore_content : String :=
  "# Ignore everything\n*\n\n# But not these files...\n!.gitignore\n!README.md\n!LICENSE\n"

/-- `create_gitignore`: writes the first `.gitignore`. -/
def create_gitignore (project_path : List String) : List Op :=
  [Op.write (pathJoin project_path ".gitignore") gitignore_content]

/-- The `README.md` text (from `create_readme`). -/
def readme_content : String :=
  "# Project Title"

/-- `create_readme`: writes `README.md`. -/
def create_readme (project_path : List String) : List Op :=
  [Op.write (pathJoin project_path "README.md") readme_content]

/-- The second, broader `.gitignore` text, written inline at the end of
`create_project` (note: no trailing newline in the source literal). -/
def gitignore_final_content : String :=
  "# ignore all\n*\n\n# except for these files\n!README.md\n!.gitignore\n!*.py\n!*.bash"

/-- The fixed subdirectory list of the data-project kind. -/
def directories : List String :=
  ["data", "output", "logs", "bash"]

/-- `create_project` from `scaffold.py`: the full trace of file-system
operations, in the order the Python code performs them.  Note the `touch` for
`config.py`, the double `chmod` of `run.bash` and the second `.gitignore`
write at the end. -/
def create_project (project_name : String) (base_path : List String) (year : Nat) :
    List Op :=
  let project_path := pathJoin base_path project_name
  (directories.map fun d => Op.mkdirp (pathJoin project_path d))
  ++ [Op.touch (pathJoin project_path "config.py")]
  ++ create_helpers project_path
  ++ create_gitignore project_path
  ++ create_license project_path year
  ++ create_readme project_path
  ++ create_run_bash project_path
  ++ [Op.chmod (pathJoin project_path "run.bash") 0o755]
  ++ [Op.write (pathJoin project_path ".gitignore") gitignore_final_content]

end scaffold

namespace scaffold_package

/-- The `__init__.py` text, with the package name interpolated
(from `create_init_file`; concatenation split at the version and author lines). -/
def init_content (package_name : String) : String :=
  "\"\"\"\n" ++ package_name ++ " - Python package scaffold\n\"\"\"\n\n"
    ++ "__version__ = \"0.1.0\"\n" ++ "__author__ = \"Jeremy\"\n"

/-- `create_init_file`: writes `src/<package_name>/__init__.py`. -/
def create_init_file (project_path : List String) (package_name : String) : List Op :=
  [Op.write (pathJoin (pathJoin (pathJoin project_path "src") package_name) "__init__.py")
    (init_content package_name)]

/-- The `base.py` text (from `create_base_file`). -/
def base_content : String :=
  "from abc \x69mport ABC, abstractmethod\n\nclass BaseClass(ABC):\n    \"\"\"Abstract base class template.\"\"\"\n    \n    def __init__(self):\n        \"\"\"Initialize base class.\"\"\"\n        pass\n        \n    @abstractmethod\n    def process(self):\n        \"\"\"Template method to be implemented by subclasses.\"\"\"\n        pass\n"

/-- `create_base_file`: writes `src/<package_name>/base.py`. -/
def create_base_file (project_path : List String) (package_name : String) : List Op :=
  [Op.write (pathJoin (pathJoin (pathJoin project_path "src") package_name) "base.py")
    base_content]

/-- The `tests/test_module1.py` text: a single newline, not the empty string
(the Python literal is `'''` newline `'''`). -/
def test_content : String :=
  "\n"

/-- `create_test_file`: writes `tests/test_module1.py`. -/
def create_test_file (project_path : List String) : List Op :=
  [Op.write (pathJoin (pathJoin project_path "tests") "test_module1.py") test_content]

/-- The `examples/basic_usage.py` text: a newline and one comment line
(the f-string has no placeholder, so the package name does not appear). -/
def example_content : String :=
  "\n# Add example usage here\n"

/-- `create_example_file`: writes `examples/basic_usage.py`. -/
def create_example_file (project_path : List String) (_package_name : String) : List Op :=
  [Op.write (pathJoin (pathJoin project_path "examples") "basic_usage.py") example_content]

/-- The `pyproject.toml` text, with the package name interpolated
(from `create_pyproject_toml`). -/
def pyproject_content (package_name : String) : String :=
  "[build-system]\nrequires = [\"setuptools>=45\", \"wheel\"]\nbuild-backend = \"setuptools.build_meta\"\n\n[project]\nname = \"" ++ package_name ++ "\"\nversion = \"0.1.0\"\nrequires-python = \">=3.8\"\n\n[tool.black]\nline-length = 88\ntarget-version = [\"py38\"]\n\n[tool.isort]\nprofile = \"black\"\nmulti_line_output = 3\n"

/-- `create_pyproject_toml`: writes `pyproject.toml`. -/
def create_pyproject_toml (project_path : List String) (package_name : String) : List Op :=
  [Op.write (pathJoin project_path "pyproject.toml") (pyproject_content package_name)]

/-- The package `README.md` text, with the package name interpolated twice
(from `create_readme`). -/
def readme_content (package_name : String) : String :=
  "# " ++ package_name ++ "\n## Installation\n\n```bash\npip install -e .\n```\n\n## Usage\n\n```python\nfrom " ++ package_name ++ ".base \x69mport BaseClass\n```\n"

/-- `create_readme`: writes `README.md`. -/
def create_readme (project_path : List String) (package_name : String) : List Op :=
  [Op.write (pathJoin project_path "README.md") (readme_content package_name)]

/-- The fixed part of the MIT license text after the interpolated year
(from the f-string in `create_license` of `scaffold_package.py`; identical
wording to the data generator). -/
def license_tail : String :=
  " Jeremy\n\nPermission is hereby granted, free of charge, to any person obtaining a copy\nof this software and associated documentation files (the \"Software\"), to deal\nin the Software without restriction, including without limitation the rights\nto use, copy, modify, merge, publish, distribute, sublicense, and/or sell\ncopies of the Software, and to permit persons to whom the Software is\nfurnished to do so, subject to the following conditions:\n\nThe above copyright notice and this permission notice shall be included in all\ncopies or substantial portions of the Software.\n\nTHE SOFTWARE IS PROVIDED \"AS IS\", WITHOUT WARRANTY OF ANY KIND, EXPRESS OR\nIMPLIED, INCLUDING BUT NOT LIMITED TO THE WARRANTIES OF MERCHANTABILITY,\nFITNESS FOR A PARTICULAR PURPOSE AND NONINFRINGEMENT. IN NO EVENT SHALL THE\nAUTHORS OR COPYRIGHT HOLDERS BE LIABLE FOR ANY CLAIM, DAMAGES OR OTHER\nLIABILITY, WHETHER IN AN ACTION OF CONTRACT, TORT OR OTHERWISE, ARISING FROM,\nOUT OF OR IN CONNECTION WITH THE SOFTWARE OR THE USE OR OTHER DEALINGS IN THE\nSOFTWARE.\n"

/-- The MIT license text of `scaffold_package.py`, stamped with the year read
from the clock. -/
def license_content (year : Nat) : String :=
  "MIT License\n\nCopyright (c) " ++ toString year ++ license_tail

/-- `create_license`: writes `LICENSE`. -/
def create_license (project_path : List String) (year : Nat) : List Op :=
  [Op.write (pathJoin project_path "LICENSE") (license_content year)]

/-- The package `.gitignore` text (from `create_gitignore`, identical to the
first pattern of the data generator). -/
def gitignore_content : String :=
  "# Ignore everything\n*\n\n# But not these files...\n!.gitignore\n!README.md\n!LICENSE\n"

/-- `create_gitignore`: writes `.gitignore`. -/
def create_gitignore (project_path : List String) : List Op :=
  [Op.write (pathJoin project_path ".gitignore") gitignore_content]

/-- The fixed relative subdirectory list of the package kind
(`Path('src') / project_name`, `Path('tests') / 'test_data'`, `Path('examples')`). -/
def directories (project_name : String) : List (List String) :=
  [pathJoin ["src"] project_name, ["tests", "test_data"], ["examples"]]

/-- `create_project_structure` from `scaffold_package.py`: the full trace of
file-system operations, in the order the Python code performs them. -/
def create_project_structure (project_name : String) (base_path : List String)
    (year : Nat) : List Op :=
  let project_path := pathJoin base_path project_name
  ((directories project_name).map fun d => Op.mkdirp (pathJoinAll project_path d))
  ++ create_init_file project_path project_name
  ++ create_base_file project_path project_name
  ++ create_test_file project_path
  ++ create_example_file project_path project_name
  ++ create_pyproject_toml project_path project_name
  ++ create_readme project_path project_name
  ++ create_license project_path year
  ++ create_gitignore project_path

end scaffold_package

theorem append_last_ne {a b : String} (h : a ≠ b) (p q : List String) :
    p ++ [a] ≠ q ++ [b] := by
  intro he
  have h2 := congrArg List.reverse he
  simp [List.reverse_append] at h2
  exact h h2.1

theorem append_singleton_ne (p q : List String) (a b : String) (h : a ≠ b) :
    p ++ [a] ≠ q ++ [b] :=
  append_last_ne h p q

theorem mem_initSegs_append (p l : List String) : p ∈ initSegs (p ++ l) := by
  induction p with
  | nil =>
      cases l with
      | nil => simp [initSegs]
      | cons a r => simp [initSegs]
  | cons a p' ih =>
      simp only [List.cons_append, initSegs, List.mem_cons, List.mem_map]
      exact Or.inr ⟨p', ih, rfl⟩

theorem mem_initSegs_self (p : List String) : p ∈ initSegs p := by
  simpa using mem_initSegs_append p []

theorem pathJoin_of_ne_empty {s : String} (h : ¬ s = "") (p : List String) :
    pathJoin p s = p ++ [s] := by
  simp [pathJoin, h]

theorem pathJoinAll_nil (p : List String) : pathJoinAll p [] = p := rfl

theorem pathJoinAll_cons (p : List String) (x : String) (l : List String) :
    pathJoinAll p (x :: l) = pathJoinAll (pathJoin p x) l := rfl

theorem pathJoinAll_pair (p : List String) (x : String) (n : String) :
    pathJoinAll p (pathJoin [x] n) = pathJoin (pathJoin p x) n := by
  by_cases hn : n = "" <;>
    simp [hn, pathJoinAll, pathJoin, List.foldl]

/-- Closed form of the effect of the data-project generator on the file map:
the later `.gitignore` write shadows the earlier one, `run.bash` ends with
mode 0o755, the other written files carry their generated content, `config.py`
keeps a pre-existing file unchanged, and every other path is untouched. -/
theorem scaffold_run_files (name : String) (base : List String) (year : Nat) (s : FS)
    (q : List String) :
    (applyOps s (scaffold.create_project name base year)).files q =
      if q = pathJoin base name ++ [".gitignore"] then
        some ⟨scaffold.gitignore_final_content,
          writeMode (s.files (pathJoin base name ++ [".gitignore"]))⟩
      else if q = pathJoin base name ++ ["run.bash"] then
        some ⟨scaffold.run_bash_content, 0o755⟩
      else if q = pathJoin base name ++ ["README.md"] then
        some ⟨scaffold.readme_content, writeMode (s.files (pathJoin base name ++ ["README.md"]))⟩
      else if q = pathJoin base name ++ ["LICENSE"] then
        some ⟨scaffold.license_content year, writeMode (s.files (pathJoin base name ++ ["LICENSE"]))⟩
      else if q = pathJoin base name ++ ["helpers.py"] then
        some ⟨scaffold.helpers_content, writeMode (s.files (pathJoin base name ++ ["helpers.py"]))⟩
      else if q = pathJoin base name ++ ["config.py"] then
        some ((s.files (pathJoin base name ++ ["config.py"])).getD ⟨"", 0o644⟩)
      else s.files q := by
  have n1 : ∀ (a b : String), a ≠ b →
      pathJoin base name ++ [a] ≠ pathJoin base name ++ [b] :=
    fun a b h => append_last_ne h _ _
  simp only [scaffold.create_project, scaffold.directories, scaffold.create_helpers,
    scaffold.create_gitignore, scaffold.create_license, scaffold.create_readme,
    scaffold.create_run_bash, List.map_cons, List.map_nil, List.cons_append,
    List.nil_append, List.append_nil]
  simp only [applyOps, List.foldl_cons, List.foldl_nil, applyOp]
  simp [pathJoin, n1, writeMode]
  split_ifs <;> rfl

/-- Closed form of the effect of the data-project generator on the directory
map: exactly the four planned subdirectories (with their parents) are added. -/
theorem scaffold_run_dirs (name : String) (base : List String) (year : Nat) (s : FS)
    (q : List String) :
    (applyOps s (scaffold.create_project name base year)).dirs q =
      if q ∈ initSegs (pathJoin base name ++ ["bash"]) then true
      else if q ∈ initSegs (pathJoin base name ++ ["logs"]) then true
      else if q ∈ initSegs (pathJoin base name ++ ["output"]) then true
      else if q ∈ initSegs (pathJoin base name ++ ["data"]) then true
      else s.dirs q := by
  simp only [scaffold.create_project, scaffold.directories, scaffold.create_helpers,
    scaffold.create_gitignore, scaffold.create_license, scaffold.create_readme,
    scaffold.create_run_bash, List.map_cons, List.map_nil, List.cons_append,
    List.nil_append, List.append_nil]
  simp only [applyOps, List.foldl_cons, List.foldl_nil, applyOp]
  simp [pathJoin]

/-- Closed form of the effect of the package generator on the file map: each of
the eight generated files carries its generated content, and every other path
is untouched. -/
theorem scaffold_package_run_files (name : String) (base : List String) (year : Nat)
    (s : FS) (q : List String) :
    (applyOps s (scaffold_package.create_project_structure name base year)).files q =
      if q = pathJoin base name ++ [".gitignore"] then
        some ⟨scaffold_package.gitignore_content,
          writeMode (s.files (pathJoin base name ++ [".gitignore"]))⟩
      else if q = pathJoin base name ++ ["LICENSE"] then
        some ⟨scaffold_package.license_content year,
          writeMode (s.files (pathJoin base name ++ ["LICENSE"]))⟩
      else if q = pathJoin base name ++ ["README.md"] then
        some ⟨scaffold_package.readme_content name,
          writeMode (s.files (pathJoin base name ++ ["README.md"]))⟩
      else if q = pathJoin base name ++ ["pyproject.toml"] then
        some ⟨scaffold_package.pyproject_content name,
          writeMode (s.files (pathJoin base name ++ ["pyproject.toml"]))⟩
      else if q = (pathJoin base name ++ ["examples"]) ++ ["basic_usage.py"] then
        some ⟨scaffold_package.example_content,
          writeMode (s.files ((pathJoin base name ++ ["examples"]) ++ ["basic_usage.py"]))⟩
      else if q = (pathJoin base name ++ ["tests"]) ++ ["test_module1.py"] then
        some ⟨scaffold_package.test_content,
          writeMode (s.files ((pathJoin base name ++ ["tests"]) ++ ["test_module1.py"]))⟩
      else if q = pathJoin (pathJoin base name ++ ["src"]) name ++ ["base.py"] then
        some ⟨scaffold_package.base_content,
          writeMode (s.files (pathJoin (pathJoin base name ++ ["src"]) name ++ ["base.py"]))⟩
      else if q = pathJoin (pathJoin base name ++ ["src"]) name ++ ["__init__.py"] then
        some ⟨scaffold_package.init_content name,
          writeMode (s.files (pathJoin (pathJoin base name ++ ["src"]) name ++ ["__init__.py"]))⟩
      else s.files q := by
  have n1 : ∀ (p q : List String) (a b : String), a ≠ b → p ++ [a] ≠ q ++ [b] :=
    fun _ _ _ _ h => append_last_ne h _ _
  simp only [scaffold_package.create_project_structure, scaffold_package.directories,
    scaffold_package.create_init_file, scaffold_package.create_base_file,
    scaffold_package.create_test_file, scaffold_package.create_example_file,
    scaffold_package.create_pyproject_toml, scaffold_package.create_readme,
    scaffold_package.create_license, scaffold_package.create_gitignore,
    List.map_cons, List.map_nil, List.cons_append, List.nil_append, List.append_nil]
  simp only [applyOps, List.foldl_cons, List.foldl_nil, applyOp, pathJoinAll]
  simp [pathJoin, n1, writeMode, -List.append_assoc]

/-- Closed form of the effect of the package generator on the directory map:
exactly the three planned subdirectories (with their parents) are added. -/
theorem scaffold_package_run_dirs (name : String) (base : List String) (year : Nat)
    (s : FS) (q : List String) :
    (applyOps s (scaffold_package.create_project_structure name base year)).dirs q =
      if q ∈ initSegs (pathJoin base name ++ ["examples"]) then true
      else if q ∈ initSegs ((pathJoin base name ++ ["tests"]) ++ ["test_data"]) then true
      else if q ∈ initSegs (pathJoin (pathJoin base name ++ ["src"]) name) then true
      else s.dirs q := by
  simp only [scaffold_package.create_project_structure, scaffold_package.directories,
    scaffold_package.create_init_file, scaffold_package.create_base_file,
    scaffold_package.create_test_file, scaffold_package.create_example_file,
    scaffold_package.create_pyproject_toml, scaffold_package.create_readme,
    scaffold_package.create_license, scaffold_package.create_gitignore,
    List.map_cons, List.map_nil, List.cons_append, List.nil_append, List.append_nil]
  simp only [applyOps, List.foldl_cons, List.foldl_nil, applyOp, pathJoinAll,
    List.foldl]
  by_cases hn : name = "" <;>
    simp [hn, pathJoin, List.foldl_cons, List.foldl_nil, -List.append_assoc]

/-- C1: for every data-project generation, the final content of the generated
`.gitignore` at `rootPath/.gitignore` is the second, broader pattern, never the
first; the trace writes the narrow pattern first and the broad pattern second,
so the final write wins. -/
theorem C1_data_gitignore_final (name : String) (base : List String) (year : Nat)
    (s : FS) :
    fileContent (applyOps s (scaffold.create_project name base year))
        (pathJoin base name ++ [".gitignore"]) = some scaffold.gitignore_final_content ∧
    contentsWrittenTo (pathJoin base name ++ [".gitignore"])
        (scaffold.create_project name base year) =
      [scaffold.gitignore_content, scaffold.gitignore_final_content] ∧
    scaffold.gitignore_final_content ≠ scaffold.gitignore_content := by
  have n1 : ∀ (p q : List String) (a b : String), a ≠ b → p ++ [a] ≠ q ++ [b] :=
    fun _ _ _ _ h => append_last_ne h _ _
  refine ⟨?_, ?_, by decide⟩
  · simp [fileContent, scaffold_run_files]
  · simp [scaffold.create_project, scaffold.directories, scaffold.create_helpers,
      scaffold.create_gitignore, scaffold.create_license, scaffold.create_readme,
      scaffold.create_run_bash, contentsWrittenTo, pathJoin_of_ne_empty, n1,
      -List.append_assoc]

/-- C2: with a fixed generation-time year, running the data-project generator
twice in a row from any starting state yields exactly the same final
file-system state as running it once. -/
theorem C2_data_idempotent (name : String) (base : List String) (year : Nat) (s : FS) :
    applyOps (applyOps s (scaffold.create_project name base year))
        (scaffold.create_project name base year) =
      applyOps s (scaffold.create_project name base year) := by
  have n1 : ∀ (p q : List String) (a b : String), a ≠ b → p ++ [a] ≠ q ++ [b] :=
    fun _ _ _ _ h => append_last_ne h _ _
  apply FS.ext
  · funext q
    simp only [scaffold_run_dirs]
    split_ifs <;> rfl
  · funext q
    simp only [scaffold_run_files]
    simp [n1, writeMode]
    split_ifs <;> simp

/-- C3 counterexample: the claim says every generated file, `config.py`
included, has its content replaced unconditionally.  But `config.py` is only
touched: generating the data project over a state that already holds a
`config.py` with content `"x"` leaves that content in place instead of
replacing it with the generated (empty) placeholder content. -/
theorem C3_counterexample :
    fileContent
        (applyOps
          ⟨fun _ => false,
           fun q => if q = ["b", "p", "config.py"] then some ⟨"x", 0o644⟩ else none⟩
          (scaffold.create_project "p" ["b"] 2025))
        ["b", "p", "config.py"] = some "x" ∧
    ("x" : String) ≠ "" := by
  constructor
  · decide
  · decide

/-- C3 (amended): every file the generators produce through `open(..., "w")`
has its content replaced unconditionally by the generated content, whatever
was there before; the one exception is the configuration placeholder
`config.py`, which is created empty only when absent and otherwise keeps its
previous content. -/
theorem C3_overwrite_amended (name : String) (base : List String) (year : Nat)
    (s : FS) :
    fileContent (applyOps s (scaffold.create_project name base year))
        (pathJoin base name ++ ["helpers.py"]) = some scaffold.helpers_content ∧
    fileContent (applyOps s (scaffold.create_project name base year))
        (pathJoin base name ++ [".gitignore"]) = some scaffold.gitignore_final_content ∧
    fileContent (applyOps s (scaffold.create_project name base year))
        (pathJoin base name ++ ["LICENSE"]) = some (scaffold.license_content year) ∧
    fileContent (applyOps s (scaffold.create_project name base year))
        (pathJoin base name ++ ["README.md"]) = some scaffold.readme_content ∧
    fileContent (applyOps s (scaffold.create_project name base year))
        (pathJoin base name ++ ["run.bash"]) = some scaffold.run_bash_content ∧
    fileContent (applyOps s (scaffold.create_project name base year))
        (pathJoin base name ++ ["config.py"]) =
      some ((fileContent s (pathJoin base name ++ ["config.py"])).getD "") ∧
    fileContent (applyOps s (scaffold_package.create_project_structure name base year))
        (pathJoin (pathJoin base name ++ ["src"]) name ++ ["__init__.py"]) =
      some (scaffold_package.init_content name) ∧
    fileContent (applyOps s (scaffold_package.create_project_structure name base year))
        (pathJoin (pathJoin base name ++ ["src"]) name ++ ["base.py"]) =
      some scaffold_package.base_content ∧
    fileContent (applyOps s (scaffold_package.create_project_structure name base year))
        ((pathJoin base name ++ ["tests"]) ++ ["test_module1.py"]) =
      some scaffold_package.test_content ∧
    fileContent (applyOps s (scaffold_package.create_project_structure name base year))
        ((pathJoin base name ++ ["examples"]) ++ ["basic_usage.py"]) =
      some scaffold_package.example_content ∧
    fileContent (applyOps s (scaffold_package.create_project_structure name base year))
        (pathJoin base name ++ ["pyproject.toml"]) =
      some (scaffold_package.pyproject_content name) ∧
    fileContent (applyOps s (scaffold_package.create_project_structure name base year))
        (pathJoin base name ++ ["README.md"]) =
      some (scaffold_package.readme_content name) ∧
    fileContent (applyOps s (scaffold_package.create_project_structure name base year))
        (pathJoin base name ++ ["LICENSE"]) =
      some (scaffold_package.license_content year) ∧
    fileContent (applyOps s (scaffold_package.create_project_structure name base year))
        (pathJoin base name ++ [".gitignore"]) =
      some scaffold_package.gitignore_content := by
  have n1 : ∀ (p q : List String) (a b : String), a ≠ b → p ++ [a] ≠ q ++ [b] :=
    fun _ _ _ _ h => append_last_ne h _ _
  refine ⟨?_, ?_, ?_, ?_, ?_, ?_, ?_, ?_, ?_, ?_, ?_, ?_, ?_, ?_⟩ <;>
    simp [fileContent, scaffold_run_files, scaffold_package_run_files, n1,
      -List.append_assoc]
  cases s.files (pathJoin base name ++ ["config.py"]) <;> simp

/-- C4 counterexample: the claim says the generated unit-test file and
example-usage file are both empty strings; in fact the test file is a single
newline and the example file is a newline plus one comment line. -/
theorem C4_counterexample :
    fileContent (applyOps emptyFS (scaffold_package.create_project_structure "p" ["b"] 2025))
        ["b", "p", "tests", "test_module1.py"] = some "\n" ∧
    fileContent (applyOps emptyFS (scaffold_package.create_project_structure "p" ["b"] 2025))
        ["b", "p", "examples", "basic_usage.py"] = some "\n# Add example usage here\n" ∧
    ("\n" : String) ≠ "" ∧
    ("\n# Add example usage here\n" : String) ≠ "" := by
  refine ⟨by decide, by decide, by decide, by decide⟩

/-- C4 (amended): for every package-project generation, the generated
unit-test file content is exactly one newline and the generated example-usage
file content is exactly a newline followed by the single comment line
`# Add example usage here` — essentially-blank placeholders, but not the empty
string. -/
theorem C4_placeholder_files (name : String) (base : List String) (year : Nat)
    (s : FS) :
    fileContent (applyOps s (scaffold_package.create_project_structure name base year))
        ((pathJoin base name ++ ["tests"]) ++ ["test_module1.py"]) =
      some scaffold_package.test_content ∧
    fileContent (applyOps s (scaffold_package.create_project_structure name base year))
        ((pathJoin base name ++ ["examples"]) ++ ["basic_usage.py"]) =
      some scaffold_package.example_content ∧
    scaffold_package.test_content = "\n" ∧
    scaffold_package.example_content = "\n# Add example usage here\n" := by
  have n1 : ∀ (p q : List String) (a b : String), a ≠ b → p ++ [a] ≠ q ++ [b] :=
    fun _ _ _ _ h => append_last_ne h _ _
  refine ⟨?_, ?_, rfl, rfl⟩ <;>
    simp [fileContent, scaffold_package_run_files, n1, -List.append_assoc]

/-- C5: the planned root path is `basePath/name` (`pathJoin base name`), and
the directories created under it are exactly `data`, `output`, `logs`, `bash`
for the data-project kind and exactly `src/<name>`, `tests/test_data`,
`examples` for the package kind, in this order. -/
theorem C5_planned_directories (name : String) (base : List String) (year : Nat) :
    mkdirTargets (scaffold.create_project name base year) =
      [pathJoin base name ++ ["data"], pathJoin base name ++ ["output"],
       pathJoin base name ++ ["logs"], pathJoin base name ++ ["bash"]] ∧
    mkdirTargets (scaffold_package.create_project_structure name base year) =
      [pathJoin (pathJoin base name ++ ["src"]) name,
       (pathJoin base name ++ ["tests"]) ++ ["test_data"],
       pathJoin base name ++ ["examples"]] := by
  constructor <;>
    simp [mkdirTargets, scaffold.create_project, scaffold.directories,
      scaffold.create_helpers, scaffold.create_gitignore, scaffold.create_license,
      scaffold.create_readme, scaffold.create_run_bash,
      scaffold_package.create_project_structure, scaffold_package.directories,
      scaffold_package.create_init_file, scaffold_package.create_base_file,
      scaffold_package.create_test_file, scaffold_package.create_example_file,
      scaffold_package.create_pyproject_toml, scaffold_package.create_readme,
      scaffold_package.create_license, scaffold_package.create_gitignore,
      pathJoinAll_pair, pathJoinAll_cons, pathJoinAll_nil, pathJoin_of_ne_empty,
      -List.append_assoc]

/-- C6: in both generator traces, every file-level operation touches a path
whose parent directory was created by an earlier `mkdirp` of the planned
subdirectory list (the parent being the root or one of the planned
directories). -/
theorem C6_dirs_before_writes (name : String) (base : List String) (year : Nat) :
    dirsBeforeWrites [] (scaffold.create_project name base year) ∧
    dirsBeforeWrites [] (scaffold_package.create_project_structure name base year) := by
  constructor
  · simp [scaffold.create_project, scaffold.directories, scaffold.create_helpers,
      scaffold.create_gitignore, scaffold.create_license, scaffold.create_readme,
      scaffold.create_run_bash, dirsBeforeWrites, pathJoin_of_ne_empty,
      mem_initSegs_append, mem_initSegs_self, -List.append_assoc]
  · simp [scaffold_package.create_project_structure, scaffold_package.directories,
      scaffold_package.create_init_file, scaffold_package.create_base_file,
      scaffold_package.create_test_file, scaffold_package.create_example_file,
      scaffold_package.create_pyproject_toml, scaffold_package.create_readme,
      scaffold_package.create_license, scaffold_package.create_gitignore,
      dirsBeforeWrites, pathJoinAll_pair, pathJoinAll_cons, pathJoinAll_nil,
      pathJoin_of_ne_empty, mem_initSegs_append, mem_initSegs_self,
      -List.append_assoc]

/-- C7: for both project kinds, the generated `LICENSE` content is the MIT
text whose copyright line interpolates exactly the year read from the clock at
generation time. -/
theorem C7_license_year (name : String) (base : List String) (year : Nat) (s : FS) :
    fileContent (applyOps s (scaffold.create_project name base year))
        (pathJoin base name ++ ["LICENSE"]) =
      some ("MIT License\n\nCopyright (c) " ++ toString year ++ scaffold.license_tail) ∧
    fileContent (applyOps s (scaffold_package.create_project_structure name base year))
        (pathJoin base name ++ ["LICENSE"]) =
      some ("MIT License\n\nCopyright (c) " ++ toString year
        ++ scaffold_package.license_tail) := by
  have n1 : ∀ (p q : List String) (a b : String), a ≠ b → p ++ [a] ≠ q ++ [b] :=
    fun _ _ _ _ h => append_last_ne h _ _
  constructor <;>
    simp [fileContent, scaffold_run_files, scaffold_package_run_files, n1,
      scaffold.license_content, scaffold_package.license_content,
      -List.append_assoc]

/-- C8: for every package-project generation with package name `n`, the
content written to `src/<n>/__init__.py` contains the literal version string
`__version__ = "0.1.0"` and the fixed author token `__author__ = "Jeremy"`. -/
theorem C8_init_version_author (name : String) (base : List String) (year : Nat)
    (s : FS) :
    fileContent (applyOps s (scaffold_package.create_project_structure name base year))
        (pathJoin (pathJoin base name ++ ["src"]) name ++ ["__init__.py"]) =
      some ("\"\"\"\n" ++ name ++ " - Python package scaffold\n\"\"\"\n\n"
        ++ "__version__ = \"0.1.0\"\n" ++ "__author__ = \"Jeremy\"\n") := by
  have n1 : ∀ (p q : List String) (a b : String), a ≠ b → p ++ [a] ≠ q ++ [b] :=
    fun _ _ _ _ h => append_last_ne h _ _
  simp [fileContent, scaffold_package_run_files, n1, scaffold_package.init_content,
    -List.append_assoc]

/-- C9: immediately after a data-project run completes, the pipeline-runner
`run.bash` holds the generated script with mode 0o755, whose owner execute bit
is set — no later step of the same run clears it. -/
theorem C9_run_bash_executable (name : String) (base : List String) (year : Nat)
    (s : FS) :
    fileMode (applyOps s (scaffold.create_project name base year))
        (pathJoin base name ++ ["run.bash"]) = some 0o755 ∧
    fileContent (applyOps s (scaffold.create_project name base year))
        (pathJoin base name ++ ["run.bash"]) = some scaffold.run_bash_content ∧
    ownerExec 0o755 = true := by
  have n1 : ∀ (p q : List String) (a b : String), a ≠ b → p ++ [a] ≠ q ++ [b] :=
    fun _ _ _ _ h => append_last_ne h _ _
  refine ⟨?_, ?_, by decide⟩ <;>
    simp [fileMode, fileContent, scaffold_run_files, n1, -List.append_assoc]

/-- C10: neither generator validates the project name, so for the empty name
the trace is produced as usual (no rejection), the computed project path
`basePath/""` is `basePath` itself, and every directory and file is created
directly inside the base path. -/
theorem C10_empty_name (base : List String) (year : Nat) :
    pathJoin base "" = base ∧
    mkdirTargets (scaffold.create_project "" base year) =
      [base ++ ["data"], base ++ ["output"], base ++ ["logs"], base ++ ["bash"]] ∧
    fileTargets (scaffold.create_project "" base year) =
      [base ++ ["config.py"], base ++ ["helpers.py"], base ++ [".gitignore"],
       base ++ ["LICENSE"], base ++ ["README.md"], base ++ ["run.bash"],
       base ++ [".gitignore"]] ∧
    mkdirTargets (scaffold_package.create_project_structure "" base year) =
      [base ++ ["src"], base ++ ["tests", "test_data"], base ++ ["examples"]] ∧
    fileTargets (scaffold_package.create_project_structure "" base year) =
      [base ++ ["src", "__init__.py"], base ++ ["src", "base.py"],
       base ++ ["tests", "test_module1.py"], base ++ ["examples", "basic_usage.py"],
       base ++ ["pyproject.toml"], base ++ ["README.md"], base ++ ["LICENSE"],
       base ++ [".gitignore"]] := by
  refine ⟨by simp [pathJoin], ?_, ?_, ?_, ?_⟩ <;>
    simp [mkdirTargets, fileTargets, scaffold.create_project, scaffold.directories,
      scaffold.create_helpers, scaffold.create_gitignore, scaffold.create_license,
      scaffold.create_readme, scaffold.create_run_bash,
      scaffold_package.create_project_structure, scaffold_package.directories,
      scaffold_package.create_init_file, scaffold_package.create_base_file,
      scaffold_package.create_test_file, scaffold_package.create_example_file,
      scaffold_package.create_pyproject_toml, scaffold_package.create_readme,
      scaffold_package.create_license, scaffold_package.create_gitignore,
      pathJoin, pathJoinAll]
